import Mathlib

/-!
Shallow embedding of src/src/baselines/transfuser/learner/models_refactored/backbone.py
(class BackboneBase): a multi-modal perception backbone fusing image and LiDAR
feature maps.

Modelling conventions:
* A torch 4D tensor (batch, channels, height, width) is a shape record plus a
  total index function into the rationals; a 2D tensor likewise.  Rational
  values stand for floating-point values: every tensor operation of the source
  (1x1 convolution, adaptive average pooling, flatten, ReLU, bilinear
  upsampling, linear layer) is an exact arithmetic expression, so its structure
  is captured faithfully; only LayerNorm needs a square root, for which a
  computable rational stand-in is used (no claim depends on its numeric value).
* torch modules that the constructor selects between (nn.Identity vs a learned
  layer) are tagged variants chosen once at construction, as in the source.
* The abstract encode step (BackboneBase.encoder raises NotImplementedError) is
  a seam: forwardWith takes the concrete encode function as an argument, and
  the base method itself is modelled as an Except value that always errors.
-/

/-- The configuration fields of the source that BackboneBase reads
(config.perception_output_features, config.bev_features_chanels, ...). -/
structure Config where
  perception_output_features : Nat
  bev_features_chanels : Nat
  bev_upsample_factor : Nat
  img_vert_anchors : Nat
  img_horz_anchors : Nat
  lidar_vert_anchors : Nat
  lidar_horz_anchors : Nat
  use_point_pillars : Bool
  use_target_point_image : Bool
  lidar_seq_len : Nat
  num_features : List Nat

/-- A 4D tensor (batch, channels, height, width) over the rationals. -/
structure Tensor4 where
  batch : Nat
  channels : Nat
  height : Nat
  width : Nat
  data : Nat → Nat → Nat → Nat → ℚ

/-- A 2D tensor (batch, channels) over the rationals. -/
structure Tensor2 where
  batch : Nat
  channels : Nat
  data : Nat → Nat → ℚ

/-- Pointwise sum of two 2D tensors (torch broadcasting is not needed here:
the source only adds same-shape (batch, channels) tensors). -/
def Tensor2.add (x y : Tensor2) : Tensor2 :=
  { batch := x.batch, channels := x.channels,
    data := fun b c => x.data b c + y.data b c }

/-- nn.Conv2d(in_channels, out_channels, (1, 1)): a pointwise linear
projection across channels, with bias. -/
structure Conv1x1 where
  in_channels : Nat
  out_channels : Nat
  weight : Nat → Nat → ℚ
  bias : Nat → ℚ

/-- Applying a 1x1 convolution: per spatial site, a matrix-vector product
over the input channels plus the bias. -/
def Conv1x1.apply (c : Conv1x1) (t : Tensor4) : Tensor4 :=
  { batch := t.batch, channels := c.out_channels,
    height := t.height, width := t.width,
    data := fun b o h w =>
      (∑ i ∈ Finset.range c.in_channels, c.weight o i * t.data b i h w) + c.bias o }

/-- nn.ReLU applied elementwise to a 4D tensor. -/
def relu4 (t : Tensor4) : Tensor4 :=
  { batch := t.batch, channels := t.channels,
    height := t.height, width := t.width,
    data := fun b c h w => max 0 (t.data b c h w) }

/-- nn.AdaptiveAvgPool2d((th, tw)): each output cell averages the input
window [floor(i*H/th), ceil((i+1)*H/th)) x [floor(j*W/tw), ceil((j+1)*W/tw)). -/
def adaptiveAvgPool2d (th tw : Nat) (t : Tensor4) : Tensor4 :=
  { batch := t.batch, channels := t.channels, height := th, width := tw,
    data := fun b c i j =>
      let hs := i * t.height / th
      let he := ((i + 1) * t.height + th - 1) / th
      let ws := j * t.width / tw
      let we := ((j + 1) * t.width + tw - 1) / tw
      (∑ y ∈ Finset.Ico hs he, ∑ x ∈ Finset.Ico ws we, t.data b c y x)
        / (((he - hs) * (we - ws) : Nat) : ℚ) }

/-- nn.Flatten(start_dim=1): (batch, c, h, w) becomes (batch, c*h*w), last
index varying fastest, as in torch row-major layout. -/
def flatten1 (t : Tensor4) : Tensor2 :=
  { batch := t.batch, channels := t.channels * t.height * t.width,
    data := fun b k =>
      t.data b (k / (t.height * t.width)) (k % (t.height * t.width) / t.width)
        (k % t.width) }

/-- Computable rational stand-in for the floating-point square root used
inside LayerNorm.  No claim in this development depends on its value, only on
LayerNorm preserving shape and on the zero-numerator case. -/
def ratSqrt (q : ℚ) : ℚ := (Int.sqrt q.num : ℚ) / (Nat.sqrt q.den : ℚ)

/-- The architecture-conditional normalization stage of _make_global_pool:
either nn.LayerNorm(dim, eps) with learned gamma and beta, or nn.Identity. -/
inductive NormStage where
  | layerNorm (dim : Nat) (eps : ℚ) (gamma beta : Nat → ℚ) : NormStage
  | identity : NormStage

/-- LayerNorm semantics over the last dimension (biased variance, as torch),
or the identity. -/
def NormStage.apply : NormStage → Tensor2 → Tensor2
  | .identity, t => t
  | .layerNorm dim eps gamma beta, t =>
      { batch := t.batch, channels := t.channels,
        data := fun b c =>
          let mean := (∑ i ∈ Finset.range dim, t.data b i) / (dim : ℚ)
          let variance :=
            (∑ i ∈ Finset.range dim, (t.data b i - mean) ^ 2) / (dim : ℚ)
          gamma c * ((t.data b c - mean) / ratSqrt (variance + eps)) + beta c }

/-- The nn.Sequential built by _make_global_pool: AdaptiveAvgPool2d((1,1)),
then Flatten(start_dim=1), then the architecture-conditional stage. -/
structure GlobalPool where
  norm : NormStage

/-- Applying the global pool sequentially, as nn.Sequential does. -/
def GlobalPool.apply (p : GlobalPool) (t : Tensor4) : Tensor2 :=
  p.norm.apply (flatten1 (adaptiveAvgPool2d 1 1 t))

/-- Python str.startswith on architecture names, modelled as a prefix test on
the character sequence. -/
def strStartsWith (s p : String) : Bool := p.data.isPrefixOf s.data

/-- BackboneBase._make_global_pool(architecture): the LayerNorm stage is
present exactly when architecture.startswith("convnext"); eps is 1e-06 and
the learned affine parameters are gamma and beta. -/
def make_global_pool (config : Config) (architecture : String)
    (gamma beta : Nat → ℚ) : GlobalPool :=
  { norm :=
      if strStartsWith architecture "convnext" then
        NormStage.layerNorm config.perception_output_features (1 / 1000000) gamma beta
      else NormStage.identity }

/-- nn.Upsample(scale_factor=s, mode="bilinear", align_corners=False):
output size is the input size times s; each output site interpolates the four
neighbouring input sites of the (corner-unaligned) source coordinate
(i + 1/2)/s - 1/2, clamped to 0 from below, edges repeated, as in torch. -/
def upsampleBilinear (s : Nat) (t : Tensor4) : Tensor4 :=
  { batch := t.batch, channels := t.channels,
    height := t.height * s, width := t.width * s,
    data := fun b c i j =>
      let sy : ℚ := max 0 (((i : ℚ) + 1 / 2) / (s : ℚ) - 1 / 2)
      let sx : ℚ := max 0 (((j : ℚ) + 1 / 2) / (s : ℚ) - 1 / 2)
      let y0 : Nat := sy.floor.toNat
      let x0 : Nat := sx.floor.toNat
      let y1 : Nat := if y0 + 1 < t.height then y0 + 1 else y0
      let x1 : Nat := if x0 + 1 < t.width then x0 + 1 else x0
      let ly : ℚ := sy - (y0 : ℚ)
      let lx : ℚ := sx - (x0 : ℚ)
      (1 - ly) * ((1 - lx) * t.data b c y0 x0 + lx * t.data b c y0 x1)
        + ly * ((1 - lx) * t.data b c y1 x0 + lx * t.data b c y1 x1) }

/-- The channel normalizer slot: nn.Identity when the encoder width already
matches the perception width, otherwise a learned 1x1 convolution. -/
inductive ConvOrId where
  | identity : ConvOrId
  | conv (c : Conv1x1) : ConvOrId

/-- Applying the channel normalizer. -/
def ConvOrId.apply : ConvOrId → Tensor4 → Tensor4
  | .identity, t => t
  | .conv c, t => c.apply t

/-- The velocity embedding slot: nn.Linear(1, perception_output_features)
when use_velocity, otherwise nn.Identity. -/
inductive VelEmb where
  | identity : VelEmb
  | linear (out_features : Nat) (weight bias : Nat → ℚ) : VelEmb

/-- Applying the velocity embedding to the (batch, 1) velocity tensor:
nn.Linear(1, C) maps it to (batch, C); nn.Identity returns it unchanged. -/
def VelEmb.apply : VelEmb → Tensor2 → Tensor2
  | .identity, v => v
  | .linear out_features weight bias, v =>
      { batch := v.batch, channels := out_features,
        data := fun b c => weight c * v.data b 0 + bias c }

/-- The external image encoder interface: ImageEncoder(architecture,
normalize=True) exposes num_features (its output channel width) and the
normalize flag.  The encoder network itself is external to the module. -/
structure ImageEncoder where
  architecture : String
  normalize : Bool
  num_features : Nat

/-- The external LiDAR encoder interface: LidarEncoder(architecture,
in_channels) exposes num_features. -/
structure LidarEncoder where
  architecture : String
  in_channels : Nat
  num_features : Nat

/-- Modelled from the spec: normalize_imagenet (imported by backbone.py from
components/encoders.py, a file not present in src/) performs channel-wise
mean/std normalization of the image with the fixed ImageNet statistics,
channels 0, 1, 2. -/
def normalize_imagenet (t : Tensor4) : Tensor4 :=
  { batch := t.batch, channels := t.channels,
    height := t.height, width := t.width,
    data := fun b c h w =>
      if c = 0 then (t.data b c h w - 485 / 1000) / (229 / 1000)
      else if c = 1 then (t.data b c h w - 456 / 1000) / (224 / 1000)
      else if c = 2 then (t.data b c h w - 406 / 1000) / (225 / 1000)
      else t.data b c h w }

/-- The deliberate failure signal of the module: BackboneBase.encoder raises
NotImplementedError, the only raise statement in the file. -/
inductive ModuleError where
  | notImplemented : ModuleError

/-- The learned parameter initialisations that construction draws on: one
independent weight/bias per layer created in BackboneBase.__init__. -/
structure InitParams where
  cci_weight : Nat → Nat → ℚ
  cci_bias : Nat → ℚ
  ccl_weight : Nat → Nat → ℚ
  ccl_bias : Nat → ℚ
  c5_weight : Nat → Nat → ℚ
  c5_bias : Nat → ℚ
  up5_weight : Nat → Nat → ℚ
  up5_bias : Nat → ℚ
  up4_weight : Nat → Nat → ℚ
  up4_bias : Nat → ℚ
  up3_weight : Nat → Nat → ℚ
  up3_bias : Nat → ℚ
  vel_weight : Nat → ℚ
  vel_bias : Nat → ℚ
  img_gamma : Nat → ℚ
  img_beta : Nat → ℚ
  lid_gamma : Nat → ℚ
  lid_beta : Nat → ℚ

/-- The state BackboneBase.__init__ leaves behind: one field per module
attribute assigned in the source. -/
structure BackboneBase where
  config : Config
  image_architecture : String
  lidar_architecture : String
  use_velocity : Bool
  use_velocity_final : Bool
  vel_emb : VelEmb
  avgpool_img : Nat × Nat
  avgpool_lidar : Nat × Nat
  image_global_pool : GlobalPool
  lidar_global_pool : GlobalPool
  image_encoder : ImageEncoder
  lidar_encoder : LidarEncoder
  change_channel_conv_image : ConvOrId
  change_channel_conv_lidar : ConvOrId
  c5_conv : Conv1x1
  up_conv5 : Conv1x1
  up_conv4 : Conv1x1
  up_conv3 : Conv1x1

/-- The LidarEncoder in_channels computation of __init__:
config.num_features[-1] if use_point_pillars else 2 * lidar_seq_len, plus one
when use_target_point_image. -/
def lidarInChannels (config : Config) : Nat :=
  (if config.use_point_pillars then config.num_features.getLastD 0
   else 2 * config.lidar_seq_len)
    + (if config.use_target_point_image then 1 else 0)

/-- BackboneBase.__init__(config, image_architecture, lidar_architecture,
use_velocity), given the external encoder output widths and the parameter
initialisations.  Mirrors the source line by line: the channel normalizers of
BOTH branches are selected by out_feature_dim = image_encoder.num_features. -/
def BackboneBase.init (config : Config)
    (image_architecture lidar_architecture : String) (use_velocity : Bool)
    (image_num_features lidar_num_features : Nat) (p : InitParams) :
    BackboneBase :=
  let image_encoder : ImageEncoder :=
    { architecture := image_architecture, normalize := true,
      num_features := image_num_features }
  let out_feature_dim := image_encoder.num_features
  { config := config
    image_architecture := image_architecture
    lidar_architecture := lidar_architecture
    use_velocity := use_velocity
    use_velocity_final := use_velocity
    vel_emb :=
      if use_velocity then
        VelEmb.linear config.perception_output_features p.vel_weight p.vel_bias
      else VelEmb.identity
    avgpool_img := (config.img_vert_anchors, config.img_horz_anchors)
    avgpool_lidar := (config.lidar_vert_anchors, config.lidar_horz_anchors)
    image_global_pool := make_global_pool config image_architecture p.img_gamma p.img_beta
    lidar_global_pool := make_global_pool config lidar_architecture p.lid_gamma p.lid_beta
    image_encoder := image_encoder
    lidar_encoder :=
      { architecture := lidar_architecture, in_channels := lidarInChannels config,
        num_features := lidar_num_features }
    change_channel_conv_image :=
      if out_feature_dim = config.perception_output_features then ConvOrId.identity
      else ConvOrId.conv
        { in_channels := out_feature_dim,
          out_channels := config.perception_output_features,
          weight := p.cci_weight, bias := p.cci_bias }
    change_channel_conv_lidar :=
      if out_feature_dim = config.perception_output_features then ConvOrId.identity
      else ConvOrId.conv
        { in_channels := out_feature_dim,
          out_channels := config.perception_output_features,
          weight := p.ccl_weight, bias := p.ccl_bias }
    c5_conv :=
      { in_channels := config.perception_output_features,
        out_channels := config.bev_features_chanels,
        weight := p.c5_weight, bias := p.c5_bias }
    up_conv5 :=
      { in_channels := config.bev_features_chanels,
        out_channels := config.bev_features_chanels,
        weight := p.up5_weight, bias := p.up5_bias }
    up_conv4 :=
      { in_channels := config.bev_features_chanels,
        out_channels := config.bev_features_chanels,
        weight := p.up4_weight, bias := p.up4_bias }
    up_conv3 :=
      { in_channels := config.bev_features_chanels,
        out_channels := config.bev_features_chanels,
        weight := p.up3_weight, bias := p.up3_bias } }

/-- BackboneBase.top_down: lateral 1x1 convolution plus ReLU (p5), then three
stages of bilinear upsample, 1x1 convolution, ReLU (p4, p3, p2); returns p2. -/
def BackboneBase.top_down (m : BackboneBase) (x : Tensor4) : Tensor4 :=
  let p5 := relu4 (m.c5_conv.apply x)
  let p4 := relu4 (m.up_conv5.apply (upsampleBilinear m.config.bev_upsample_factor p5))
  let p3 := relu4 (m.up_conv4.apply (upsampleBilinear m.config.bev_upsample_factor p4))
  let p2 := relu4 (m.up_conv3.apply (upsampleBilinear m.config.bev_upsample_factor p3))
  p2

/-- BackboneBase.process_image: normalize_imagenet(image) if the image
encoder declares normalize, else the image unchanged. -/
def BackboneBase.process_image (m : BackboneBase) (image : Tensor4) : Tensor4 :=
  if m.image_encoder.normalize then normalize_imagenet image else image

/-- BackboneBase.process_lidar: the LiDAR tensor unchanged. -/
def BackboneBase.process_lidar (_ : BackboneBase) (lidar : Tensor4) : Tensor4 :=
  lidar

/-- BackboneBase.encoder: the abstract encode step of the base class raises
NotImplementedError for every input. -/
def BackboneBase.encoder (_ : BackboneBase) {P Q : Type}
    (_ : Tensor4) (_ : Tensor4) (_ : Tensor2) (_ : P) (_ : Q) :
    Except ModuleError (Tensor4 × Tensor4) :=
  Except.error ModuleError.notImplemented

/-- The type of a concrete encode strategy supplied by a subclass: the
polymorphic seam self.encoder that forward dispatches into. -/
def EncodeFn (P Q : Type) : Type :=
  Tensor4 → Tensor4 → Tensor2 → P → Q → Tensor4 × Tensor4

/-- BackboneBase.forward, with the dynamically dispatched self.encoder made
explicit as the argument enc.  Mirrors the source line by line: preprocess,
encode, channel-normalize both maps, pool BOTH maps with
self.image_global_pool, sum, optionally add the velocity embedding, and
return (top_down of the LiDAR grid, the image grid, the fused features). -/
def BackboneBase.forwardWith (m : BackboneBase) {P Q : Type} (enc : EncodeFn P Q)
    (image lidar : Tensor4) (velocity : Tensor2) (bev_points : P)
    (img_points : Q) : Tensor4 × Tensor4 × Tensor2 :=
  let image := m.process_image image
  let lidar := m.process_lidar lidar
  let features := enc image lidar velocity bev_points img_points
  let image_features := features.1
  let lidar_features := features.2
  let image_features_grid := m.change_channel_conv_image.apply image_features
  let lidar_features_grid := m.change_channel_conv_lidar.apply lidar_features
  let image_features_pooled := m.image_global_pool.apply image_features_grid
  let lidar_features_pooled := m.image_global_pool.apply lidar_features_grid
  let fused_features := image_features_pooled.add lidar_features_pooled
  let fused_features :=
    if m.use_velocity_final then
      fused_features.add (m.vel_emb.apply velocity)
    else fused_features
  (m.top_down lidar_features_grid, image_features_grid, fused_features)

/-- BackboneBase.forward of the base class itself: self.encoder is the
abstract method, so every invocation fails with the NotImplementedError
signal before producing any output. -/
def BackboneBase.forward (m : BackboneBase) {P Q : Type}
    (image lidar : Tensor4) (velocity : Tensor2) (bev_points : P)
    (img_points : Q) : Except ModuleError (Tensor4 × Tensor4 × Tensor2) := do
  let image := m.process_image image
  let lidar := m.process_lidar lidar
  let features ← m.encoder image lidar velocity bev_points img_points
  let image_features_grid := m.change_channel_conv_image.apply features.1
  let lidar_features_grid := m.change_channel_conv_lidar.apply features.2
  let image_features_pooled := m.image_global_pool.apply image_features_grid
  let lidar_features_pooled := m.image_global_pool.apply lidar_features_grid
  let fused_features := image_features_pooled.add lidar_features_pooled
  let fused_features :=
    if m.use_velocity_final then
      fused_features.add (m.vel_emb.apply velocity)
    else fused_features
  return (m.top_down lidar_features_grid, image_features_grid, fused_features)

/-- A minimal concrete configuration for concrete instances: one channel
everywhere, so an encoder width of 1 matches the perception width and the
channel normalizers are the identity. -/
def cfg1 : Config :=
  { perception_output_features := 1, bev_features_chanels := 1,
    bev_upsample_factor := 2, img_vert_anchors := 1, img_horz_anchors := 1,
    lidar_vert_anchors := 1, lidar_horz_anchors := 1,
    use_point_pillars := false, use_target_point_image := false,
    lidar_seq_len := 1, num_features := [] }

/-- Unit weights, zero biases, and the LayerNorm affine parameters at their
torch initialisation (gamma one, beta zero). -/
def params1 : InitParams :=
  { cci_weight := fun _ _ => 1, cci_bias := fun _ => 0,
    ccl_weight := fun _ _ => 1, ccl_bias := fun _ => 0,
    c5_weight := fun _ _ => 1, c5_bias := fun _ => 0,
    up5_weight := fun _ _ => 1, up5_bias := fun _ => 0,
    up4_weight := fun _ _ => 1, up4_bias := fun _ => 0,
    up3_weight := fun _ _ => 1, up3_bias := fun _ => 0,
    vel_weight := fun _ => 1, vel_bias := fun _ => 0,
    img_gamma := fun _ => 1, img_beta := fun _ => 0,
    lid_gamma := fun _ => 1, lid_beta := fun _ => 0 }

/-- A constant feature map of shape (1, 1, 1, 1). -/
def tensor1 (q : ℚ) : Tensor4 :=
  { batch := 1, channels := 1, height := 1, width := 1,
    data := fun _ _ _ _ => q }

/-- A constant velocity tensor of shape (1, 1). -/
def vel1 (q : ℚ) : Tensor2 :=
  { batch := 1, channels := 1, data := fun _ _ => q }

/-- A concrete encode strategy that ignores all of its inputs. -/
def encConst : EncodeFn Unit Unit := fun _ _ _ _ _ => (tensor1 1, tensor1 1)

/-- A concrete encode strategy that leaks the velocity input into both
feature maps: admissible for the abstract encode seam, which receives the
velocity argument from forward. -/
def encVel : EncodeFn Unit Unit :=
  fun _ _ v _ _ => (tensor1 (v.data 0 0), tensor1 (v.data 0 0))

/-- Shape of relu4. -/
@[simp] theorem relu4_batch (t : Tensor4) : (relu4 t).batch = t.batch := rfl

@[simp] theorem relu4_channels (t : Tensor4) : (relu4 t).channels = t.channels := rfl

@[simp] theorem relu4_height (t : Tensor4) : (relu4 t).height = t.height := rfl

@[simp] theorem relu4_width (t : Tensor4) : (relu4 t).width = t.width := rfl

/-- Shape of a 1x1 convolution. -/
@[simp] theorem conv1x1_apply_batch (c : Conv1x1) (t : Tensor4) :
    (c.apply t).batch = t.batch := rfl

@[simp] theorem conv1x1_apply_channels (c : Conv1x1) (t : Tensor4) :
    (c.apply t).channels = c.out_channels := rfl

@[simp] theorem conv1x1_apply_height (c : Conv1x1) (t : Tensor4) :
    (c.apply t).height = t.height := rfl

@[simp] theorem conv1x1_apply_width (c : Conv1x1) (t : Tensor4) :
    (c.apply t).width = t.width := rfl

/-- Shape of bilinear upsampling. -/
@[simp] theorem upsampleBilinear_batch (s : Nat) (t : Tensor4) :
    (upsampleBilinear s t).batch = t.batch := rfl

@[simp] theorem upsampleBilinear_channels (s : Nat) (t : Tensor4) :
    (upsampleBilinear s t).channels = t.channels := rfl

@[simp] theorem upsampleBilinear_height (s : Nat) (t : Tensor4) :
    (upsampleBilinear s t).height = t.height * s := rfl

@[simp] theorem upsampleBilinear_width (s : Nat) (t : Tensor4) :
    (upsampleBilinear s t).width = t.width * s := rfl

/-- Shape of adaptive average pooling. -/
@[simp] theorem adaptiveAvgPool2d_batch (th tw : Nat) (t : Tensor4) :
    (adaptiveAvgPool2d th tw t).batch = t.batch := rfl

@[simp] theorem adaptiveAvgPool2d_channels (th tw : Nat) (t : Tensor4) :
    (adaptiveAvgPool2d th tw t).channels = t.channels := rfl

@[simp] theorem adaptiveAvgPool2d_height (th tw : Nat) (t : Tensor4) :
    (adaptiveAvgPool2d th tw t).height = th := rfl

@[simp] theorem adaptiveAvgPool2d_width (th tw : Nat) (t : Tensor4) :
    (adaptiveAvgPool2d th tw t).width = tw := rfl

/-- Shape of flattening. -/
@[simp] theorem flatten1_batch (t : Tensor4) : (flatten1 t).batch = t.batch := rfl

@[simp] theorem flatten1_channels (t : Tensor4) :
    (flatten1 t).channels = t.channels * t.height * t.width := rfl

/-- Shape of the pointwise sum. -/
@[simp] theorem tensor2_add_batch (x y : Tensor2) : (x.add y).batch = x.batch := rfl

@[simp] theorem tensor2_add_channels (x y : Tensor2) :
    (x.add y).channels = x.channels := rfl

/-- Both variants of the normalization stage preserve the 2D shape. -/
@[simp] theorem normStage_apply_batch (n : NormStage) (t : Tensor2) :
    (n.apply t).batch = t.batch := by cases n <;> rfl

@[simp] theorem normStage_apply_channels (n : NormStage) (t : Tensor2) :
    (n.apply t).channels = t.channels := by cases n <;> rfl

/-- Shape of the global pool output: batch preserved, channels equal to the
input channel count (times the collapsed 1x1 spatial cell). -/
@[simp] theorem globalPool_apply_batch (p : GlobalPool) (t : Tensor4) :
    (p.apply t).batch = t.batch := by
  simp [GlobalPool.apply]

@[simp] theorem globalPool_apply_channels (p : GlobalPool) (t : Tensor4) :
    (p.apply t).channels = t.channels := by
  simp [GlobalPool.apply]

/-- C1: for every valid configuration, the channel normalizers
change_channel_conv_image and change_channel_conv_lidar are the identity if
and only if the image encoder output width equals the configured
perception_output_features; otherwise each is a learned 1x1 projection,
independently parameterized per branch, whose output channel count is exactly
perception_output_features with batch and spatial dimensions unchanged, for
any input spatial size. -/
theorem C1_channel_normalizer_identity_iff (config : Config)
    (ia la : String) (uv : Bool) (inf lnf : Nat) (p : InitParams) :
    let m := BackboneBase.init config ia la uv inf lnf p
    ((m.change_channel_conv_image = ConvOrId.identity ∧
      m.change_channel_conv_lidar = ConvOrId.identity) ↔
        inf = config.perception_output_features) ∧
    (inf ≠ config.perception_output_features →
      m.change_channel_conv_image = ConvOrId.conv
        { in_channels := inf, out_channels := config.perception_output_features,
          weight := p.cci_weight, bias := p.cci_bias } ∧
      m.change_channel_conv_lidar = ConvOrId.conv
        { in_channels := inf, out_channels := config.perception_output_features,
          weight := p.ccl_weight, bias := p.ccl_bias }) ∧
    (∀ t : Tensor4,
      (m.change_channel_conv_image.apply t).batch = t.batch ∧
      (m.change_channel_conv_image.apply t).height = t.height ∧
      (m.change_channel_conv_image.apply t).width = t.width ∧
      (m.change_channel_conv_lidar.apply t).batch = t.batch ∧
      (m.change_channel_conv_lidar.apply t).height = t.height ∧
      (m.change_channel_conv_lidar.apply t).width = t.width) ∧
    (∀ t : Tensor4, inf ≠ config.perception_output_features →
      (m.change_channel_conv_image.apply t).channels =
        config.perception_output_features ∧
      (m.change_channel_conv_lidar.apply t).channels =
        config.perception_output_features) := by
  by_cases h : inf = config.perception_output_features <;>
    simp [BackboneBase.init, h, ConvOrId.apply, Conv1x1.apply]

/-- C10: the identity-versus-projection decision for both channel
normalizers, and the input channel width of the LiDAR-branch 1x1 projection,
are determined solely by the image encoder num_features: when that width
equals perception_output_features both branches are identity whatever the
LiDAR encoder width is, and otherwise the LiDAR-branch convolution expects
input of the image encoder width, not the LiDAR encoder width. -/
theorem C10_decision_uses_image_width_only (config : Config) (ia la : String)
    (uv : Bool) (inf lnf : Nat) (p : InitParams) :
    ((BackboneBase.init config ia la uv config.perception_output_features lnf
        p).change_channel_conv_image = ConvOrId.identity ∧
     (BackboneBase.init config ia la uv config.perception_output_features lnf
        p).change_channel_conv_lidar = ConvOrId.identity) ∧
    (inf ≠ config.perception_output_features →
      ∃ cl : Conv1x1,
        (BackboneBase.init config ia la uv inf lnf
          p).change_channel_conv_lidar = ConvOrId.conv cl ∧
        cl.in_channels = inf ∧
        cl.in_channels =
          (BackboneBase.init config ia la uv inf lnf
            p).image_encoder.num_features) := by
  refine ⟨by simp [BackboneBase.init],
    fun h => ⟨{ in_channels := inf,
                out_channels := config.perception_output_features,
                weight := p.ccl_weight, bias := p.ccl_bias }, ?_, rfl, ?_⟩⟩
  · simp [BackboneBase.init, h]
  · simp [BackboneBase.init]

/-- C5: top_down is a fixed cascade of exactly 3 upsample stages after the
lateral stage: a 1x1 convolution from perception width to BEV channel width
plus ReLU (p5), then three repetitions of bilinear corner-unaligned upsample
by the configured factor s, 1x1 convolution at constant BEV channel width and
ReLU (p4, p3, p2), returning p2; for input spatial size (H, W) the output has
spatial size (H * s^3, W * s^3) and BEV channel width throughout. -/
theorem C5_top_down_cascade (config : Config) (ia la : String) (uv : Bool)
    (inf lnf : Nat) (p : InitParams) (x : Tensor4) :
    let m := BackboneBase.init config ia la uv inf lnf p
    let s := config.bev_upsample_factor
    let p5 := relu4 (m.c5_conv.apply x)
    let p4 := relu4 (m.up_conv5.apply (upsampleBilinear s p5))
    let p3 := relu4 (m.up_conv4.apply (upsampleBilinear s p4))
    let p2 := relu4 (m.up_conv3.apply (upsampleBilinear s p3))
    m.top_down x = p2 ∧
    m.c5_conv.in_channels = config.perception_output_features ∧
    m.c5_conv.out_channels = config.bev_features_chanels ∧
    p5.channels = config.bev_features_chanels ∧
    p4.channels = config.bev_features_chanels ∧
    p3.channels = config.bev_features_chanels ∧
    p2.channels = config.bev_features_chanels ∧
    p2.batch = x.batch ∧
    p2.height = x.height * s ^ 3 ∧
    p2.width = x.width * s ^ 3 := by
  refine ⟨rfl, rfl, rfl, rfl, rfl, rfl, rfl, rfl, ?_, ?_⟩ <;> simp <;> ring

/-- C8: for every feature map carrying the contractual perception channel
width, the global pooler output has shape (batch, perception_output_features)
regardless of the input spatial dimensions, and is computed as adaptive
average pooling to a 1x1 spatial cell followed by flattening to a vector and
the architecture-conditional stage. -/
theorem C8_global_pool_output_shape (config : Config) (arch : String)
    (gamma beta : Nat → ℚ) (t : Tensor4)
    (h : t.channels = config.perception_output_features) :
    ((make_global_pool config arch gamma beta).apply t).batch = t.batch ∧
    ((make_global_pool config arch gamma beta).apply t).channels =
      config.perception_output_features ∧
    (make_global_pool config arch gamma beta).apply t =
      (make_global_pool config arch gamma beta).norm.apply
        (flatten1 (adaptiveAvgPool2d 1 1 t)) := by
  refine ⟨by simp, by simp [h], rfl⟩

/-- Witness for C8 at a concrete input: the 1-channel constant feature map
matches the perception width of the concrete configuration, and the pooled
output has shape (1, 1). -/
theorem C8_global_pool_output_shape_witness :
    (tensor1 7).channels = cfg1.perception_output_features ∧
    (((make_global_pool cfg1 "resnet34" params1.img_gamma params1.img_beta).apply
        (tensor1 7)).batch = (tensor1 7).batch ∧
     ((make_global_pool cfg1 "resnet34" params1.img_gamma params1.img_beta).apply
        (tensor1 7)).channels = cfg1.perception_output_features ∧
     (make_global_pool cfg1 "resnet34" params1.img_gamma params1.img_beta).apply
        (tensor1 7) =
       (make_global_pool cfg1 "resnet34" params1.img_gamma
          params1.img_beta).norm.apply
         (flatten1 (adaptiveAvgPool2d 1 1 (tensor1 7)))) :=
  ⟨rfl, C8_global_pool_output_shape cfg1 "resnet34" params1.img_gamma
    params1.img_beta (tensor1 7) rfl⟩

/-- C6: the architecture-conditional stage of the global pooler is a
LayerNorm over perception_output_features with eps 1e-06 exactly when the
owning encoder architecture name starts with "convnext"; for ResNet and
RegNet family names it is the identity; the pooled output shape is the same
in both cases. -/
theorem C6_pool_layernorm_iff_convnext (config : Config) (arch : String)
    (gamma beta : Nat → ℚ) (t : Tensor4) :
    ((make_global_pool config arch gamma beta).norm = NormStage.identity ↔
      strStartsWith arch "convnext" = false) ∧
    (strStartsWith arch "convnext" = true →
      (make_global_pool config arch gamma beta).norm =
        NormStage.layerNorm config.perception_output_features (1 / 1000000)
          gamma beta) ∧
    (make_global_pool config "resnet18" gamma beta).norm = NormStage.identity ∧
    (make_global_pool config "resnet34" gamma beta).norm = NormStage.identity ∧
    (make_global_pool config "regnety_032" gamma beta).norm =
      NormStage.identity ∧
    (make_global_pool config "convnext_base" gamma beta).norm =
      NormStage.layerNorm config.perception_output_features (1 / 1000000)
        gamma beta ∧
    ((make_global_pool config arch gamma beta).apply t).batch = t.batch ∧
    ((make_global_pool config arch gamma beta).apply t).channels =
      t.channels := by
  have h18 : strStartsWith "resnet18" "convnext" = false := by decide
  have h34 : strStartsWith "resnet34" "convnext" = false := by decide
  have hrg : strStartsWith "regnety_032" "convnext" = false := by decide
  have hcv : strStartsWith "convnext_base" "convnext" = true := by decide
  by_cases h : strStartsWith arch "convnext" <;>
    simp [make_global_pool, h, h18, h34, hrg, hcv]

/-- C9: invoking the abstract encode step of the base class fails with the
NotImplementedError signal for every input; it is the only deliberate error
of the module (the error type has a single constructor), and the base
forward, which dispatches into it, therefore fails for every input too. -/
theorem C9_encoder_raises_not_implemented {P Q : Type} (m : BackboneBase)
    (image lidar : Tensor4) (velocity : Tensor2) (bp : P) (ip : Q) :
    m.encoder image lidar velocity bp ip =
      Except.error ModuleError.notImplemented ∧
    (∀ e : ModuleError, e = ModuleError.notImplemented) ∧
    m.forward image lidar velocity bp ip =
      Except.error ModuleError.notImplemented :=
  ⟨rfl, fun e => by cases e; rfl, rfl⟩

/-- C4: for every input, forward returns exactly the 3-tuple (decoded LiDAR
map, channel-normalized image map, fused embedding) in that order: the image
is preprocessed by ImageNet mean/std normalization conditional on the
encoder normalize flag (which construction sets to true), the LiDAR tensor
passes through unchanged, both encoder outputs are channel-normalized, the
decoded LiDAR map is top_down of the channel-normalized LiDAR map, and the
fused embedding is the sum of the two pooled embeddings plus the optional
velocity embedding. -/
theorem C4_forward_returns_composition (config : Config) (ia la : String)
    (uv : Bool) (inf lnf : Nat) (p : InitParams) {P Q : Type}
    (enc : EncodeFn P Q) (image lidar : Tensor4) (velocity : Tensor2)
    (bp : P) (ip : Q) :
    let m := BackboneBase.init config ia la uv inf lnf p
    let img := if m.image_encoder.normalize then normalize_imagenet image
               else image
    let features := enc img lidar velocity bp ip
    let image_grid := m.change_channel_conv_image.apply features.1
    let lidar_grid := m.change_channel_conv_lidar.apply features.2
    let fused := (m.image_global_pool.apply image_grid).add
      (m.image_global_pool.apply lidar_grid)
    m.forwardWith enc image lidar velocity bp ip =
      (m.top_down lidar_grid, image_grid,
        if uv then fused.add (m.vel_emb.apply velocity) else fused) ∧
    m.image_encoder.normalize = true := by
  constructor
  · simp only [BackboneBase.forwardWith, BackboneBase.process_image,
      BackboneBase.process_lidar]
    rfl
  · rfl

/-- C2: in every forward invocation both channel-normalized maps are pooled
with the image-branch pooling instance (self.image_global_pool), not each by
its own modality instance; and in a concrete backbone whose LiDAR encoder is
a ConvNeXt while the image encoder is a ResNet, the fused embedding forward
computes differs from the value per-modality pooling would give, so the
reuse is observable. -/
theorem C2_lidar_pooled_with_image_pool (config : Config) (ia la : String)
    (uv : Bool) (inf lnf : Nat) (p : InitParams) {P Q : Type}
    (enc : EncodeFn P Q) (image lidar : Tensor4) (velocity : Tensor2)
    (bp : P) (ip : Q) :
    (let m := BackboneBase.init config ia la uv inf lnf p
     let features := enc (m.process_image image) (m.process_lidar lidar)
       velocity bp ip
     let fused := (m.image_global_pool.apply
         (m.change_channel_conv_image.apply features.1)).add
       (m.image_global_pool.apply
         (m.change_channel_conv_lidar.apply features.2))
     (m.forwardWith enc image lidar velocity bp ip).2.2 =
       if uv then fused.add (m.vel_emb.apply velocity) else fused) ∧
    (let m2 := BackboneBase.init cfg1 "resnet34" "convnext_base" false 1 1
       params1
     let features := encConst (m2.process_image (tensor1 0))
       (m2.process_lidar (tensor1 0)) (vel1 0) () ()
     let image_grid := m2.change_channel_conv_image.apply features.1
     let lidar_grid := m2.change_channel_conv_lidar.apply features.2
     ((m2.forwardWith encConst (tensor1 0) (tensor1 0) (vel1 0) () ()).2.2).data
         0 0 ≠
       ((m2.image_global_pool.apply image_grid).add
         (m2.lidar_global_pool.apply lidar_grid)).data 0 0) := by
  have h34 : strStartsWith "resnet34" "convnext" = false := by decide
  have hcv : strStartsWith "convnext_base" "convnext" = true := by decide
  constructor
  · simp only [BackboneBase.forwardWith]
    rfl
  · simp only [BackboneBase.forwardWith, BackboneBase.init,
      BackboneBase.process_image, BackboneBase.process_lidar, encConst,
      make_global_pool, h34, hcv, if_true, if_false, Bool.false_eq_true,
      GlobalPool.apply, NormStage.apply, ConvOrId.apply, Tensor2.add,
      flatten1, adaptiveAvgPool2d, tensor1, vel1, cfg1, params1,
      Nat.Ico_zero_eq_range, Finset.sum_range_one]
    norm_num

/-- C7: for a backbone constructed with use_velocity=True, vel_emb is a
learned affine scalar-to-vector projection nn.Linear(1,
perception_output_features) with bias, and a forward call whose velocity is
zero still adds the bias term: the fused embedding is the sum of the two
pooled embeddings plus the bias vector of the velocity projection. -/
theorem C7_velocity_zero_still_adds_bias (config : Config) (ia la : String)
    (inf lnf : Nat) (p : InitParams) {P Q : Type} (enc : EncodeFn P Q)
    (image lidar : Tensor4) (velocity : Tensor2) (bp : P) (ip : Q)
    (hv : ∀ i, velocity.data i 0 = 0) :
    (BackboneBase.init config ia la true inf lnf p).vel_emb =
      VelEmb.linear config.perception_output_features p.vel_weight
        p.vel_bias ∧
    (∀ i c,
      (((BackboneBase.init config ia la true inf lnf p).forwardWith enc image
          lidar velocity bp ip).2.2).data i c =
        (let m := BackboneBase.init config ia la true inf lnf p
         let features := enc (m.process_image image) (m.process_lidar lidar)
           velocity bp ip
         ((m.image_global_pool.apply
             (m.change_channel_conv_image.apply features.1)).data i c +
          (m.image_global_pool.apply
             (m.change_channel_conv_lidar.apply features.2)).data i c) +
          p.vel_bias c)) := by
  refine ⟨rfl, fun i c => ?_⟩
  simp only [BackboneBase.forwardWith, BackboneBase.init, VelEmb.apply,
    Tensor2.add, if_true]
  simp [hv i]

/-- Witness for C7 at concrete inputs: the constant-zero velocity tensor
satisfies the hypothesis, and the conclusion holds at the concrete backbone. -/
theorem C7_velocity_zero_still_adds_bias_witness :
    (∀ i, (vel1 0).data i 0 = 0) ∧
    ((BackboneBase.init cfg1 "resnet34" "resnet18" true 1 1 params1).vel_emb =
      VelEmb.linear cfg1.perception_output_features params1.vel_weight
        params1.vel_bias ∧
    (∀ i c,
      (((BackboneBase.init cfg1 "resnet34" "resnet18" true 1 1
          params1).forwardWith encConst (tensor1 0) (tensor1 0) (vel1 0) ()
          ()).2.2).data i c =
        (let m := BackboneBase.init cfg1 "resnet34" "resnet18" true 1 1 params1
         let features := encConst (m.process_image (tensor1 0))
           (m.process_lidar (tensor1 0)) (vel1 0) () ()
         ((m.image_global_pool.apply
             (m.change_channel_conv_image.apply features.1)).data i c +
          (m.image_global_pool.apply
             (m.change_channel_conv_lidar.apply features.2)).data i c) +
          params1.vel_bias c))) :=
  ⟨fun _ => rfl,
    C7_velocity_zero_still_adds_bias cfg1 "resnet34" "resnet18" 1 1 params1
      encConst (tensor1 0) (tensor1 0) (vel1 0) () () (fun _ => rfl)⟩

/-- C3 (amended): for every backbone constructed with use_velocity=False,
forward adds no velocity term after the encode step: the fused embedding is
the plain element-wise sum of the two pooled embeddings, and two forward
calls that differ only in the velocity argument produce identical outputs
provided the encode step treats the velocity argument as opaque (the source
passes velocity into the abstract self.encoder, so without this proviso a
subclass encode strategy can make the features depend on it). -/
theorem C3_no_velocity_term_when_disabled (config : Config) (ia la : String)
    (inf lnf : Nat) (p : InitParams) {P Q : Type} (enc : EncodeFn P Q)
    (image lidar : Tensor4) (v v' : Tensor2) (bp : P) (ip : Q)
    (henc : ∀ a b u u' c d, enc a b u c d = enc a b u' c d) :
    ((BackboneBase.init config ia la false inf lnf p).forwardWith enc image
        lidar v bp ip).2.2 =
      (let m := BackboneBase.init config ia la false inf lnf p
       let features := enc (m.process_image image) (m.process_lidar lidar) v
         bp ip
       (m.image_global_pool.apply
           (m.change_channel_conv_image.apply features.1)).add
         (m.image_global_pool.apply
           (m.change_channel_conv_lidar.apply features.2))) ∧
    (BackboneBase.init config ia la false inf lnf p).forwardWith enc image
        lidar v bp ip =
      (BackboneBase.init config ia la false inf lnf p).forwardWith enc image
        lidar v' bp ip := by
  constructor
  · simp only [BackboneBase.forwardWith]
    rfl
  · have huv : (BackboneBase.init config ia la false inf lnf
        p).use_velocity_final = false := rfl
    simp only [BackboneBase.forwardWith, huv, Bool.false_eq_true, if_false]
    rw [henc (BackboneBase.process_image _ image)
      (BackboneBase.process_lidar _ lidar) v v' bp ip]

/-- Witness for C3 at concrete inputs: a velocity-blind concrete encode
strategy satisfies the proviso, and the two forward calls at velocities 0
and 1 agree, with the fused embedding the plain sum of the pooled
embeddings. -/
theorem C3_no_velocity_term_when_disabled_witness :
    (∀ a b u u' c d, encConst a b u c d = encConst a b u' c d) ∧
    (((BackboneBase.init cfg1 "resnet34" "resnet18" false 1 1
          params1).forwardWith encConst (tensor1 0) (tensor1 0) (vel1 0) ()
          ()).2.2 =
        (let m := BackboneBase.init cfg1 "resnet34" "resnet18" false 1 1
           params1
         let features := encConst (m.process_image (tensor1 0))
           (m.process_lidar (tensor1 0)) (vel1 0) () ()
         (m.image_global_pool.apply
             (m.change_channel_conv_image.apply features.1)).add
           (m.image_global_pool.apply
             (m.change_channel_conv_lidar.apply features.2))) ∧
      (BackboneBase.init cfg1 "resnet34" "resnet18" false 1 1
          params1).forwardWith encConst (tensor1 0) (tensor1 0) (vel1 0) ()
          () =
        (BackboneBase.init cfg1 "resnet34" "resnet18" false 1 1
          params1).forwardWith encConst (tensor1 0) (tensor1 0) (vel1 1) ()
          ()) :=
  ⟨fun _ _ _ _ _ _ => rfl,
    C3_no_velocity_term_when_disabled cfg1 "resnet34" "resnet18" 1 1 params1
      encConst (tensor1 0) (tensor1 0) (vel1 0) (vel1 1) () ()
      (fun _ _ _ _ _ _ => rfl)⟩

/-- Counterexample to C3 as stated: a backbone constructed with
use_velocity=False, together with a concrete encode strategy for the
abstract self.encoder seam that leaks the velocity argument into the
feature maps, yields different fused embeddings for two forward calls that
differ only in the velocity argument. -/
theorem C3_as_stated_false :
    (BackboneBase.init cfg1 "resnet34" "resnet18" false 1 1
        params1).use_velocity = false ∧
    (((BackboneBase.init cfg1 "resnet34" "resnet18" false 1 1
          params1).forwardWith encVel (tensor1 0) (tensor1 0) (vel1 0) ()
          ()).2.2).data 0 0 ≠
      (((BackboneBase.init cfg1 "resnet34" "resnet18" false 1 1
          params1).forwardWith encVel (tensor1 0) (tensor1 0) (vel1 1) ()
          ()).2.2).data 0 0 := by
  have h34 : strStartsWith "resnet34" "convnext" = false := by decide
  refine ⟨rfl, ?_⟩
  simp only [BackboneBase.forwardWith, BackboneBase.init,
    BackboneBase.process_image, BackboneBase.process_lidar, encVel,
    make_global_pool, h34, if_false, Bool.false_eq_true, GlobalPool.apply,
    NormStage.apply, ConvOrId.apply, Tensor2.add, flatten1,
    adaptiveAvgPool2d, tensor1, vel1, cfg1, params1, Nat.Ico_zero_eq_range,
    Finset.sum_range_one]
  norm_num
